import Mathlib

set_option linter.unusedVariables false

/-!
Shallow embedding of `paddlex/deploy.py` (the `Predictor` façade of the PaddleX
deployment wrapper) and verification of its specification claims.

The wrapper's own control flow (construction checks, dispatch on
`model_type`/`model_name`, the `im_shape` extraction in `predict` /
`batch_predict`, `raw_predict` slot binding, `create_predictor` engine
configuration) is translated directly from the source.  The external
collaborators — the per-model-family `_preprocess`/`_postprocess` helpers,
`build_transforms`, and the native `fluid` inference engine — are not part of
the repository snapshot; they are modelled from the specification and marked
as such in their doc comments.

Python runtime failures are made explicit: functions that can raise return
`Except PyErr`; `PyErr` distinguishes the generic `raise Exception(...)`,
`KeyError` (missing dict key), `NameError` (lookup of a never-assigned global
name), `UnboundLocalError` (read of an unassigned local), and `IndexError`.
-/

namespace PaddleXDeploy

/-- An image argument (a path or a decoded array); identified abstractly. -/
abbrev Image := Nat

/-- Tensors flowing through the wrapper.  The modelled external preprocessing
routines record their provenance (which images they were built from); engine
outputs and score matrices are `mat` values. -/
inductive Tensor where
  | imageBatch (imgs : List Image)
  | imSize (imgs : List Image)
  | imResizeInfo (imgs : List Image)
  | imShape (imgs : List Image)
  | mat (rows : List (List Int))
deriving DecidableEq

/-- Python exceptions observable in `deploy.py`. -/
inductive PyErr where
  | exception (msg : String)
  | keyError
  | nameError
  | unboundLocalError
  | indexError
  | attrError
deriving DecidableEq

/-- `isOkE e` is true when `e` carries a value (construction/evaluation did not
raise). -/
def isOkE {α : Type} (e : Except PyErr α) : Bool :=
  match e with
  | Except.ok _ => true
  | Except.error _ => false

/-- Python `dict` assignment `d[k] = v`: overwrite in place when the key is
present, otherwise append preserving insertion order. -/
def dictSet (d : List (String × Tensor)) (k : String) (v : Tensor) :
    List (String × Tensor) :=
  if d.any (fun kv => kv.fst == k) then
    d.map (fun kv => if kv.fst == k then (k, v) else kv)
  else d ++ [(k, v)]

/-- Python `k in d` membership test on a dict. -/
def dictContains (d : List (String × Tensor)) (k : String) : Bool :=
  d.any (fun kv => kv.fst == k)

/-- Python `d[k]` lookup (first binding of the key, if any). -/
def dictGet : List (String × Tensor) → String → Option Tensor
  | [], _ => none
  | kv :: rest, k => if kv.fst == k then some kv.snd else dictGet rest k

/-- `charsStartWith pat s` is true when `pat` is an initial segment of `s`. -/
def charsStartWith : List Char → List Char → Bool
  | [], _ => true
  | _ :: _, [] => false
  | a :: as, b :: bs => a == b && charsStartWith as bs

/-- `occursAux pat s` is true when `pat` occurs contiguously inside `s`. -/
def occursAux (pat : List Char) : List Char → Bool
  | [] => charsStartWith pat []
  | c :: rest => charsStartWith pat (c :: rest) || occursAux pat rest

/-- Boolean rendering of the source's `model_name.count(pat) > 0`: the
non-overlapping occurrence count is positive exactly when `pat` occurs as a
contiguous substring. -/
def strOccursIn (pat s : String) : Bool :=
  occursAux pat.toList s.toList

/-- The constructed transform pipeline handle. -/
structure Transforms where
  model_type : String
  specs : List String
  to_rgb : Bool
deriving DecidableEq

/-- Modelled from the spec: `paddlex.cv.transforms.build_transforms` (external
collaborator, not in the snapshot) builds the transform pipeline from the
model type, the ordered transform configs and the colour-mode boolean; the
handle records its arguments. -/
def build_transforms (model_type : String) (specs : List String) (to_rgb : Bool) :
    Transforms :=
  { model_type := model_type, specs := specs, to_rgb := to_rgb }

/-- The fields of the `model.yml` descriptor consumed by `Predictor.__init__`:
`status`, `_Attributes.model_type`, `Model`, `_Attributes.num_classes`,
`_Attributes.labels`, `_init_params.with_fpn`, the optional `TransformsMode`
and `Transforms`. -/
structure ModelInfo where
  status : String
  model_type : String
  Model : String
  num_classes : Nat
  labels : List String
  with_fpn : Bool
  TransformsMode : Option String
  Transforms : List String
deriving DecidableEq

/-- The engine configuration accumulated by `create_predictor`
(`fluid.core.AnalysisConfig`). -/
structure AnalysisConfig where
  model_file : String
  params_file : String
  gpu_enabled : Bool
  gpu_init_mem : Nat
  gpu_device_id : Nat
  mkldnn_enabled : Bool
  glog_enabled : Bool
  memory_optim_enabled : Bool
  ir_optim : Bool
  use_feed_fetch_ops : Bool
deriving DecidableEq

/-- Modelled from the spec: the initial state of
`fluid.core.AnalysisConfig(model_file, params_file)` before any of the
wrapper's configuration calls (no device selected, no optional features
enabled, feed/fetch ops still in use). -/
def AnalysisConfig.init (model_file params_file : String) : AnalysisConfig :=
  { model_file := model_file, params_file := params_file,
    gpu_enabled := false, gpu_init_mem := 0, gpu_device_id := 0,
    mkldnn_enabled := false, glog_enabled := false,
    memory_optim_enabled := false, ir_optim := false,
    use_feed_fetch_ops := true }

/-- The native inference engine handle: its configuration, its declared input
and output slot names, and its forward pass (`run bound name` is the output
tensor for slot `name` after binding the inputs `bound`). -/
structure Engine where
  config : AnalysisConfig
  input_names : List String
  output_names : List String
  run : List (String × Tensor) → String → Tensor

/-- Modelled from the spec: `fluid.core.create_paddle_predictor(config)`
constructs the native engine from the configuration.  The engine's declared
slots come from the serialized model artifact, which is outside this wrapper,
so the handle built here records only the configuration (slot declarations
empty, forward pass trivial); theorems about slot binding quantify over
arbitrary `Engine` values instead. -/
def create_paddle_predictor (c : AnalysisConfig) : Engine :=
  { config := c, input_names := [], output_names := [],
    run := fun _ _ => Tensor.mat [] }

/-- One engine-configuration call performed by `create_predictor`. -/
inductive ConfigStep where
  | enableUseGpu (initMem devId : Nat)
  | disableGpu
  | enableMkldnn
  | enableGlogInfo
  | disableGlogInfo
  | enableMemoryOptim
  | switchIrOptim (b : Bool)
  | switchUseFeedFetchOps (b : Bool)
deriving DecidableEq

/-- The ordered sequence of engine-configuration calls made by
`Predictor.create_predictor` (source lines 89-106). -/
def create_predictor_steps (use_gpu : Bool) (gpu_id : Nat)
    (use_mkl use_trt use_glog memory_optimize : Bool) : List ConfigStep :=
  (if use_gpu then [ConfigStep.enableUseGpu 100 gpu_id]
   else [ConfigStep.disableGpu])
  ++ (if use_mkl then [ConfigStep.enableMkldnn] else [])
  ++ (if use_glog then [ConfigStep.enableGlogInfo]
      else [ConfigStep.disableGlogInfo])
  ++ (if memory_optimize then [ConfigStep.enableMemoryOptim] else [])
  ++ [ConfigStep.switchIrOptim true, ConfigStep.switchUseFeedFetchOps false]

/-- `Predictor.create_predictor` (source lines 78-108), with `self.model_dir`
passed explicitly: builds the `AnalysisConfig` from the two artifact paths,
applies the device / mkldnn / glog / memory-optimization switches, always
enables IR optimization and disables feed/fetch ops, and hands the
configuration to the native engine constructor. -/
def create_predictor (model_dir : String) (use_gpu : Bool) (gpu_id : Nat)
    (use_mkl use_trt use_glog memory_optimize : Bool) : Engine :=
  let config := AnalysisConfig.init (model_dir ++ "/__model__")
    (model_dir ++ "/__params__")
  let config := if use_gpu then
      { config with gpu_enabled := true, gpu_init_mem := 100, gpu_device_id := gpu_id }
    else { config with gpu_enabled := false }
  let config := if use_mkl then { config with mkldnn_enabled := true }
    else config
  let config := if use_glog then { config with glog_enabled := true }
    else { config with glog_enabled := false }
  let config := if memory_optimize then
      { config with memory_optim_enabled := true }
    else config
  let config := { config with ir_optim := true }
  let config := { config with use_feed_fetch_ops := false }
  create_paddle_predictor config

/-- Modelled from the spec: `BaseClassifier._preprocess` (external) decodes
the images, applies the transform pipeline and batches them into the primary
image tensor. -/
def BaseClassifier_preprocess (images : List Image) (transforms : Transforms)
    (model_type model_name : String) (thread_num : Nat) : Tensor :=
  Tensor.imageBatch images

/-- Modelled from the spec: `YOLOv3._preprocess` (external) produces the
batched image tensor together with the image-size tensor required by YOLOv3
postprocessing. -/
def YOLOv3_preprocess (images : List Image) (transforms : Transforms)
    (model_type model_name : String) (thread_num : Nat) : Tensor × Tensor :=
  (Tensor.imageBatch images, Tensor.imSize images)

/-- Modelled from the spec: `FasterRCNN._preprocess` (external) produces the
batched image tensor, the resize-info tensor and the image-shape tensor
required by RCNN-family postprocessing. -/
def FasterRCNN_preprocess (images : List Image) (transforms : Transforms)
    (model_type model_name : String) (thread_num : Nat) :
    Tensor × Tensor × Tensor :=
  (Tensor.imageBatch images, Tensor.imResizeInfo images, Tensor.imShape images)

/-- Modelled from the spec: `DeepLabv3p._preprocess` (external) produces the
batched image tensor together with the resize/scale info tensor. -/
def DeepLabv3p_preprocess (images : List Image) (transforms : Transforms)
    (model_type model_name : String) (thread_num : Nat) : Tensor × Tensor :=
  (Tensor.imageBatch images, Tensor.imResizeInfo images)

/-- A per-item prediction result. -/
inductive Pred where
  | cls (pairs : List (String × Int))
  | det (family : String) (results : List Tensor)
  | mask (resolution : Nat) (results : List Tensor)
deriving DecidableEq

/-- The classifier ranking order on class indices of a score row: higher score
first, ties broken by ascending class index. -/
def rankRel (row : List Int) (i j : Nat) : Prop :=
  row.getD j 0 < row.getD i 0 ∨ (row.getD i 0 = row.getD j 0 ∧ i ≤ j)

instance rankRelDecidable (row : List Int) : DecidableRel (rankRel row) :=
  fun _ _ => inferInstanceAs (Decidable (_ ∨ _))

instance rankRelTotal (row : List Int) : IsTotal Nat (rankRel row) := by
  constructor
  intro i j
  rcases lt_trichotomy (row.getD i 0) (row.getD j 0) with h | h | h
  · exact Or.inr (Or.inl h)
  · rcases Nat.le_total i j with hij | hij
    · exact Or.inl (Or.inr ⟨h, hij⟩)
    · exact Or.inr (Or.inr ⟨h.symm, hij⟩)
  · exact Or.inl (Or.inl h)

instance rankRelTrans (row : List Int) : IsTrans Nat (rankRel row) := by
  constructor
  intro i j k hij hjk
  rcases hij with h1 | h1 <;> rcases hjk with h2 | h2
  · exact Or.inl (h2.trans h1)
  · exact Or.inl (h2.1 ▸ h1)
  · exact Or.inl (by rw [h1.1]; exact h2)
  · exact Or.inr ⟨h1.1.trans h2.1, h1.2.trans h2.2⟩

/-- Class indices of a score row in classifier ranking order (stable sort of
`0, 1, …, row.length - 1` by descending score, ascending index on ties). -/
def rankIdx (row : List Int) : List Nat :=
  List.insertionSort (rankRel row) (List.range row.length)

/-- The first `k` ranked `(label, score)` pairs of a score row. -/
def topkPairs (row : List Int) (k : Nat) (labels : List String) :
    List (String × Int) :=
  ((rankIdx row).take k).map (fun i => (labels.getD i "", row.getD i 0))

/-- Modelled from the spec: `BaseClassifier._postprocess` (external) maps the
score matrix in the first output tensor to the `true_topk` highest-scoring
`(label, score)` pairs per image, highest score first, ties broken by
ascending class index, using the descriptor's label list. -/
def BaseClassifier_postprocess (results : List Tensor) (true_topk : Nat)
    (labels : List String) : List Pred :=
  match results with
  | Tensor.mat rows :: _ => rows.map (fun row => Pred.cls (topkPairs row true_topk labels))
  | _ => []

/-- Modelled from the spec: `YOLOv3._postprocess` (external) decodes bounding
boxes from the box output tensor, one detection result per batch item. -/
def YOLOv3_postprocess (results : List Tensor) (outs : List String)
    (batch_size num_classes : Nat) (labels : List String) : List Pred :=
  List.replicate batch_size (Pred.det "YOLOv3" results)

/-- Modelled from the spec: `FasterRCNN._postprocess` (external) decodes
bounding boxes from the box output tensor, one detection result per batch
item. -/
def FasterRCNN_postprocess (results : List Tensor) (outs : List String)
    (batch_size num_classes : Nat) (labels : List String) : List Pred :=
  List.replicate batch_size (Pred.det "FasterRCNN" results)

/-- Modelled from the spec: `MaskRCNN._postprocess` (external) decodes boxes
and masks, decoding each mask at the given mask-head resolution; the result
records the resolution it was handed. -/
def MaskRCNN_postprocess (results : List Tensor) (outs : List String)
    (batch_size num_classes mask_head_resolution : Nat)
    (labels : List String) : List Pred :=
  List.replicate batch_size (Pred.mask mask_head_resolution results)

/-- The `Predictor` object state after `__init__`. -/
structure Predictor where
  status : String
  model_dir : String
  model_type : String
  model_name : String
  num_classes : Nat
  labels : List String
  mask_head_resolution : Option Nat
  transforms : Transforms
  engine : Engine

/-- The message of the status-check `Exception` (source lines 55-56). -/
def statusErrMsg : String :=
  "[ERROR] Only quantized model or exported inference model is supported."

/-- `Predictor.__init__` (source lines 26-76) from the parsed descriptor
onward (the directory / `model.yml` existence checks precede the parse and
are not modelled): reject a status other than `"Quant"` or `"Infer"`, extract
the descriptor fields, set `mask_head_resolution` (28 with FPN, 14 without)
only when `Model` is `"MaskRCNN"`, resolve `TransformsMode` (default
`"RGB"`) to the `to_rgb` boolean, build the transforms, and create the
engine. -/
def Predictor.mk? (info : ModelInfo) (use_gpu : Bool := true)
    (gpu_id : Nat := 0) (use_mkl : Bool := false) (use_trt : Bool := false)
    (use_glog : Bool := false) (memory_optimize : Bool := true)
    (model_dir : String := "") : Except PyErr Predictor :=
  if info.status ≠ "Quant" ∧ info.status ≠ "Infer" then
    Except.error (PyErr.exception statusErrMsg)
  else
    let mask_head_resolution : Option Nat :=
      if info.Model = "MaskRCNN" then
        if info.with_fpn then some 28 else some 14
      else none
    let transforms_mode := info.TransformsMode.getD "RGB"
    let to_rgb := transforms_mode == "RGB"
    let transforms := build_transforms info.model_type info.Transforms to_rgb
    let engine := create_predictor model_dir use_gpu gpu_id use_mkl use_trt
      use_glog memory_optimize
    Except.ok
      { status := info.status, model_dir := model_dir,
        model_type := info.model_type, model_name := info.Model,
        num_classes := info.num_classes, labels := info.labels,
        mask_head_resolution := mask_head_resolution,
        transforms := transforms, engine := engine }

/-- `Predictor.preprocess` (source lines 110-156).  The segmenter branch is
the source typo: the tuple is bound to `im, im_imfo` but the stored value is
the never-assigned name `im_info`, so `res['im_info'] = im_info` raises
`NameError` before the mapping is returned. -/
def Predictor.preprocess (p : Predictor) (image : List Image)
    (thread_num : Nat := 1) : Except PyErr (List (String × Tensor)) :=
  let res : List (String × Tensor) := []
  if p.model_type = "classifier" then
    let im := BaseClassifier_preprocess image p.transforms p.model_type
      p.model_name thread_num
    Except.ok (dictSet res "image" im)
  else if p.model_type = "detector" then
    let res :=
      if p.model_name = "YOLOv3" then
        let pr := YOLOv3_preprocess image p.transforms p.model_type
          p.model_name thread_num
        dictSet (dictSet res "image" pr.1) "im_size" pr.2
      else res
    let res :=
      if strOccursIn "RCNN" p.model_name then
        let pr := FasterRCNN_preprocess image p.transforms p.model_type
          p.model_name thread_num
        dictSet (dictSet (dictSet res "image" pr.1) "im_info" pr.2.1)
          "im_shape" pr.2.2
      else res
    Except.ok res
  else if p.model_type = "segmenter" then
    Except.error PyErr.nameError
  else
    Except.ok res

/-- `Predictor.postprocess` (source lines 158-175).  Branches that assign no
`preds` fall through to `return preds`, raising `UnboundLocalError`; the
MaskRCNN branch reads `self.mask_head_resolution`, which is an
`AttributeError` when construction never set it. -/
def Predictor.postprocess (p : Predictor) (results : List Tensor)
    (topk : Nat := 1) (batch_size : Nat := 1)
    (im_shape : Option Tensor := none) : Except PyErr (List Pred) :=
  if p.model_type = "classifier" then
    let true_topk := min p.num_classes topk
    Except.ok (BaseClassifier_postprocess results true_topk p.labels)
  else if p.model_type = "detector" then
    if p.model_name = "YOLOv3" then
      Except.ok (YOLOv3_postprocess results ["bbox"] batch_size
        p.num_classes p.labels)
    else if p.model_name = "FasterRCNN" then
      Except.ok (FasterRCNN_postprocess results ["bbox"] batch_size
        p.num_classes p.labels)
    else if p.model_name = "MaskRCNN" then
      match p.mask_head_resolution with
      | some r => Except.ok (MaskRCNN_postprocess results ["bbox", "mask"]
          batch_size p.num_classes r p.labels)
      | none => Except.error PyErr.attrError
    else
      Except.error PyErr.unboundLocalError
  else
    Except.error PyErr.unboundLocalError

/-- `Predictor.raw_predict` (source lines 177-195): bind each input whose name
the engine declares (`except: continue` silently skips the rest), run the
forward pass once, and collect every declared output in declared order. -/
def Engine.raw_predict (e : Engine) (inputs : List (String × Tensor)) :
    List Tensor :=
  let bound := inputs.filter (fun kv => e.input_names.contains kv.fst)
  e.output_names.map (fun name => e.run bound name)

/-- The `im_shape` extraction shared verbatim by `predict` (lines 208-209)
and `batch_predict` (lines 226-227):
`im_shape = None if key in preprocessed_input else preprocessed_input[key]`.
When the key is absent the else-arm looks the key up and raises `KeyError`. -/
def extract_im_shape (pre : List (String × Tensor)) :
    Except PyErr (Option Tensor) :=
  if dictContains pre "im_shape" then Except.ok none
  else
    match dictGet pre "im_shape" with
    | some v => Except.ok (some v)
    | none => Except.error PyErr.keyError

/-- `Predictor.predict` (source lines 197-213): preprocess the singleton
batch, run the engine, extract `im_shape`, postprocess with `batch_size=1`,
and return `results[0]` (an `IndexError` on an empty result list). -/
def Predictor.predict (p : Predictor) (image : Image) (topk : Nat := 1) :
    Except PyErr Pred :=
  match p.preprocess [image] with
  | Except.error e => Except.error e
  | Except.ok preprocessed_input =>
    let model_pred := p.engine.raw_predict preprocessed_input
    match extract_im_shape preprocessed_input with
    | Except.error e => Except.error e
    | Except.ok im_shape =>
      match p.postprocess model_pred topk 1 im_shape with
      | Except.error e => Except.error e
      | Except.ok [] => Except.error PyErr.indexError
      | Except.ok (r :: _) => Except.ok r

/-- `Predictor.batch_predict` (source lines 215-231): same pipeline on the
whole list; `thread_num` is accepted but not forwarded to `preprocess`, and
`postprocess` is called with `batch_size=1`. -/
def Predictor.batch_predict (p : Predictor) (image_list : List Image)
    (topk : Nat := 1) (thread_num : Nat := 2) : Except PyErr (List Pred) :=
  match p.preprocess image_list with
  | Except.error e => Except.error e
  | Except.ok preprocessed_input =>
    let model_pred := p.engine.raw_predict preprocessed_input
    match extract_im_shape preprocessed_input with
    | Except.error e => Except.error e
    | Except.ok im_shape => p.postprocess model_pred topk 1 im_shape

/-! ### Concrete fixtures used by counterexamples and witnesses -/

/-- A small concrete engine: one declared input slot, one declared output slot
whose forward pass yields a 1×3 score matrix. -/
def engine0 : Engine :=
  { config := AnalysisConfig.init "m/__model__" "m/__params__",
    input_names := ["image"], output_names := ["scores"],
    run := fun _ _ => Tensor.mat [[3, 1, 2]] }

/-- A concrete transform pipeline handle. -/
def transforms0 : Transforms :=
  { model_type := "classifier", specs := [], to_rgb := true }

/-- A concrete classifier predictor. -/
def clsP : Predictor :=
  { status := "Infer", model_dir := "m", model_type := "classifier",
    model_name := "ResNet50", num_classes := 3,
    labels := ["cat", "dog", "bird"], mask_head_resolution := none,
    transforms := transforms0, engine := engine0 }

/-- A concrete YOLOv3 detector predictor. -/
def yoloP : Predictor :=
  { clsP with model_type := "detector", model_name := "YOLOv3" }

/-- A concrete segmenter predictor. -/
def segP : Predictor :=
  { clsP with model_type := "segmenter", model_name := "DeepLabv3p" }

/-- A concrete predictor with an unrecognized model type. -/
def fooP : Predictor :=
  { clsP with model_type := "foo", model_name := "Bar" }

/-- A concrete detector predictor with an unhandled model name that does not
contain `"RCNN"`. -/
def ssdP : Predictor :=
  { clsP with model_type := "detector", model_name := "SSD" }

/-- A concrete detector predictor whose name contains `"RCNN"` but which the
postprocess dispatch does not handle. -/
def cascadeP : Predictor :=
  { clsP with model_type := "detector", model_name := "CascadeRCNN" }

/-- A concrete MaskRCNN detector predictor (FPN variant). -/
def maskP : Predictor :=
  { clsP with
      model_type := "detector"
      model_name := "MaskRCNN"
      mask_head_resolution := some 28 }

/-- A concrete 5-class classifier predictor. -/
def cp5 : Predictor :=
  { clsP with
      num_classes := 5
      labels := ["cat", "dog", "bird", "fox", "owl"] }

/-- A concrete descriptor whose status is the claim's literal `"Quantized"`. -/
def infoQuantized : ModelInfo :=
  { status := "Quantized", model_type := "classifier", Model := "ResNet50",
    num_classes := 3, labels := ["cat", "dog", "bird"], with_fpn := false,
    TransformsMode := none, Transforms := [] }

/-- The same descriptor with the code's accepted status `"Quant"`. -/
def infoQuant : ModelInfo := { infoQuantized with status := "Quant" }

/-- A descriptor with an arbitrary unrecognized status. -/
def infoFoo : ModelInfo := { infoQuantized with status := "Foo" }

/-- An exported-inference MaskRCNN descriptor with the FPN flag set. -/
def infoMask : ModelInfo :=
  { infoQuantized with
      status := "Infer"
      model_type := "detector"
      Model := "MaskRCNN"
      with_fpn := true }

/-- The same MaskRCNN descriptor without the FPN flag. -/
def infoMaskNoFpn : ModelInfo := { infoMask with with_fpn := false }

/-- An exported-inference classifier descriptor. -/
def infoInfer : ModelInfo := { infoQuantized with status := "Infer" }

/-! ### Helper lemmas -/

/-- A key absent from a dict is not found by lookup. -/
lemma dictGet_eq_none (d : List (String × Tensor)) (k : String)
    (h : dictContains d k = false) : dictGet d k = none := by
  induction d with
  | nil => rfl
  | cons kv rest ih =>
    rw [dictContains, List.any_cons, Bool.or_eq_false_iff] at h
    show (if kv.fst == k then some kv.snd else dictGet rest k) = none
    rw [if_neg (by simp [h.1])]
    exact ih h.2

/-- Equality of `Except` values over decidable payloads is decidable. -/
instance exceptDecEq {ε α : Type} [DecidableEq ε] [DecidableEq α] :
    DecidableEq (Except ε α) := fun a b =>
  match a, b with
  | Except.error e1, Except.error e2 =>
    if h : e1 = e2 then isTrue (by rw [h])
    else isFalse (by intro hc; injection hc; exact h ‹_›)
  | Except.ok x, Except.ok y =>
    if h : x = y then isTrue (by rw [h])
    else isFalse (by intro hc; injection hc; exact h ‹_›)
  | Except.error _, Except.ok _ => isFalse (fun hc => Except.noConfusion hc)
  | Except.ok _, Except.error _ => isFalse (fun hc => Except.noConfusion hc)

/-- The shared extraction raises `KeyError` whenever the key is absent. -/
lemma extract_im_shape_absent (pre : List (String × Tensor))
    (h : dictContains pre "im_shape" = false) :
    extract_im_shape pre = Except.error PyErr.keyError := by
  simp [extract_im_shape, h, dictGet_eq_none pre "im_shape" h]

/-- Classifier preprocessing produces the single-key `image` batch. -/
lemma preprocess_classifier (p : Predictor) (imgs : List Image) (tn : Nat)
    (h : p.model_type = "classifier") :
    p.preprocess imgs tn
      = Except.ok [("image", BaseClassifier_preprocess imgs p.transforms
          p.model_type p.model_name tn)] := by
  simp [Predictor.preprocess, h, dictSet]

/-- YOLOv3 preprocessing produces the `image` / `im_size` batch, without
`im_shape`. -/
lemma preprocess_yolov3 (p : Predictor) (imgs : List Image) (tn : Nat)
    (hty : p.model_type = "detector") (hn : p.model_name = "YOLOv3") :
    p.preprocess imgs tn
      = Except.ok [("image", (YOLOv3_preprocess imgs p.transforms p.model_type
            p.model_name tn).1),
          ("im_size", (YOLOv3_preprocess imgs p.transforms p.model_type
            p.model_name tn).2)] := by
  have hocc : strOccursIn "RCNN" "YOLOv3" = false := by decide
  simp [Predictor.preprocess, hty, hn, hocc, dictSet]

/-- `predict` raises `KeyError` when the preprocessed batch lacks
`im_shape`. -/
lemma predict_keyError (p : Predictor) (img : Image) (topk : Nat)
    (pre : List (String × Tensor))
    (hpre : p.preprocess [img] 1 = Except.ok pre)
    (hni : dictContains pre "im_shape" = false) :
    p.predict img topk = Except.error PyErr.keyError := by
  simp only [Predictor.predict, hpre, extract_im_shape_absent pre hni]

/-- `batch_predict` raises `KeyError` when the preprocessed batch lacks
`im_shape`. -/
lemma batch_predict_keyError (p : Predictor) (imgs : List Image)
    (topk tn : Nat) (pre : List (String × Tensor))
    (hpre : p.preprocess imgs 1 = Except.ok pre)
    (hni : dictContains pre "im_shape" = false) :
    p.batch_predict imgs topk tn = Except.error PyErr.keyError := by
  simp only [Predictor.batch_predict, hpre, extract_im_shape_absent pre hni]

/-- `rankIdx` lists each class index exactly once. -/
lemma rankIdx_perm (row : List Int) :
    (rankIdx row).Perm (List.range row.length) :=
  List.perm_insertionSort (rankRel row) (List.range row.length)

/-- `rankIdx` is sorted: descending score, ascending index on ties. -/
lemma rankIdx_sorted (row : List Int) :
    List.Sorted (rankRel row) (rankIdx row) :=
  List.sorted_insertionSort (rankRel row) (List.range row.length)

/-- The ranking has one entry per class. -/
lemma rankIdx_length (row : List Int) : (rankIdx row).length = row.length := by
  rw [(rankIdx_perm row).length_eq, List.length_range]

/-- Taking `k ≤ row.length` ranked pairs yields exactly `k` pairs. -/
lemma topkPairs_length (row : List Int) (k : Nat) (labels : List String)
    (h : k ≤ row.length) : (topkPairs row k labels).length = k := by
  rw [topkPairs, List.length_map, List.length_take, rankIdx_length,
    Nat.min_eq_left h]

/-! ### Claim theorems -/

/-- C9: the `use_trt` construction parameter is accepted but never consulted:
two runs of `create_predictor` that differ only in `use_trt` perform the same
ordered sequence of engine-configuration steps and produce the same
configured engine. -/
theorem use_trt_noninterference (model_dir : String) (use_gpu : Bool)
    (gpu_id : Nat) (use_mkl t1 t2 use_glog memory_optimize : Bool) :
    create_predictor_steps use_gpu gpu_id use_mkl t1 use_glog memory_optimize
      = create_predictor_steps use_gpu gpu_id use_mkl t2 use_glog
          memory_optimize
    ∧ create_predictor model_dir use_gpu gpu_id use_mkl t1 use_glog
          memory_optimize
      = create_predictor model_dir use_gpu gpu_id use_mkl t2 use_glog
          memory_optimize :=
  ⟨rfl, rfl⟩

/-- C3 counterexample: the literal status `"Quantized"` is inside the claim's
accepted set, yet construction fails with the status `Exception`; the literal
`"Quant"` is outside that set, yet construction succeeds.  The set the code
accepts is `{"Quant", "Infer"}`. -/
theorem status_quantized_rejected :
    Predictor.mk? infoQuantized = Except.error (PyErr.exception statusErrMsg)
    ∧ isOkE (Predictor.mk? infoQuant) = true :=
  ⟨rfl, rfl⟩

/-- C3 (amended): construction fails with the status-check `Exception`
exactly when the descriptor's `status` lies outside `{"Quant", "Infer"}`, and
the check passes (construction proceeds) for a status in that set. -/
theorem status_check (info : ModelInfo) (use_gpu : Bool) (gpu_id : Nat)
    (use_mkl use_trt use_glog memory_optimize : Bool) (model_dir : String) :
    (info.status ≠ "Quant" ∧ info.status ≠ "Infer" →
      Predictor.mk? info use_gpu gpu_id use_mkl use_trt use_glog
          memory_optimize model_dir
        = Except.error (PyErr.exception statusErrMsg))
    ∧ ((info.status = "Quant" ∨ info.status = "Infer") →
      isOkE (Predictor.mk? info use_gpu gpu_id use_mkl use_trt use_glog
          memory_optimize model_dir) = true) := by
  constructor
  · intro h
    simp [Predictor.mk?, h.1, h.2]
  · intro h
    have hcond : ¬(info.status ≠ "Quant" ∧ info.status ≠ "Infer") := by
      rcases h with h | h <;> simp [h]
    unfold Predictor.mk?
    rw [if_neg hcond]
    rfl

/-- C3 witness: the amended status check at the concrete statuses `"Foo"`
(rejected) and `"Infer"` (accepted). -/
theorem status_check_witness :
    Predictor.mk? infoFoo true 0 false false false true ""
      = Except.error (PyErr.exception statusErrMsg)
    ∧ isOkE (Predictor.mk? infoInfer true 0 false false false true "")
      = true :=
  ⟨(status_check infoFoo true 0 false false false true "").1 (by decide),
   (status_check infoInfer true 0 false false false true "").2 (Or.inr rfl)⟩

/-- C2 counterexample: neither the unrecognized `model_type = "foo"` nor any
unhandled `model_type`/`model_name` combination signals a configuration
error.  `preprocess` returns the empty mapping for `"foo"` and for the
unhandled detector name `"SSD"` with no error signalled, and `postprocess`
fails with `UnboundLocalError` for `"foo"`, for the unhandled detector names
`"SSD"` and `"CascadeRCNN"`, and for segmenters (whose branch its dispatch
omits). -/
theorem unknown_model_type_cex :
    fooP.preprocess [0] 1 = Except.ok []
    ∧ fooP.postprocess [Tensor.mat [[1]]] 1 1 none
      = Except.error PyErr.unboundLocalError
    ∧ ssdP.preprocess [0] 1 = Except.ok []
    ∧ ssdP.postprocess [Tensor.mat [[1]]] 1 1 none
      = Except.error PyErr.unboundLocalError
    ∧ cascadeP.postprocess [Tensor.mat [[1]]] 1 1 none
      = Except.error PyErr.unboundLocalError
    ∧ segP.postprocess [Tensor.mat [[1]]] 1 1 none
      = Except.error PyErr.unboundLocalError :=
  ⟨rfl, rfl, rfl, rfl, rfl, rfl⟩

/-- C2 (amended): no unsupported `model_type`/`model_name` ever signals an
`UnsupportedModelError`.  For a `model_type` outside
`{"classifier", "detector", "segmenter"}`, `preprocess` silently returns the
empty mapping; a detector whose name is neither `"YOLOv3"` nor contains
`"RCNN"` likewise gets the empty mapping; a detector whose name contains
`"RCNN"` but is neither `"FasterRCNN"` nor `"MaskRCNN"` gets the full RCNN
mapping from `preprocess` yet is unhandled by `postprocess`.  In every one
of these cases, and for segmenters (whose branch the postprocess dispatch
omits), `postprocess` raises `UnboundLocalError` at `return preds`. -/
theorem unknown_model_type (p : Predictor) (images : List Image) (tn : Nat)
    (results : List Tensor) (topk bs : Nat) :
    (p.model_type ≠ "classifier" → p.model_type ≠ "detector" →
      p.model_type ≠ "segmenter" →
      p.preprocess images tn = Except.ok []
      ∧ p.postprocess results topk bs none
        = Except.error PyErr.unboundLocalError)
    ∧ (p.model_type = "detector" → p.model_name ≠ "YOLOv3" →
      strOccursIn "RCNN" p.model_name = false →
      p.preprocess images tn = Except.ok []
      ∧ p.postprocess results topk bs none
        = Except.error PyErr.unboundLocalError)
    ∧ (p.model_type = "detector" → strOccursIn "RCNN" p.model_name = true →
      p.model_name ≠ "FasterRCNN" → p.model_name ≠ "MaskRCNN" →
      p.preprocess images tn
        = Except.ok [("image", (FasterRCNN_preprocess images p.transforms
              p.model_type p.model_name tn).1),
            ("im_info", (FasterRCNN_preprocess images p.transforms
              p.model_type p.model_name tn).2.1),
            ("im_shape", (FasterRCNN_preprocess images p.transforms
              p.model_type p.model_name tn).2.2)]
      ∧ p.postprocess results topk bs none
        = Except.error PyErr.unboundLocalError)
    ∧ (p.model_type = "segmenter" →
      p.postprocess results topk bs none
        = Except.error PyErr.unboundLocalError) := by
  refine ⟨?_, ?_, ?_, ?_⟩
  · intro h1 h2 h3
    constructor
    · simp [Predictor.preprocess, h1, h2, h3]
    · simp [Predictor.postprocess, h1, h2]
  · intro hd hn hr
    have hf : p.model_name ≠ "FasterRCNN" := fun hc => by
      rw [hc] at hr
      exact absurd hr (by decide)
    have hm : p.model_name ≠ "MaskRCNN" := fun hc => by
      rw [hc] at hr
      exact absurd hr (by decide)
    constructor
    · simp [Predictor.preprocess, hd, hn, hr]
    · simp [Predictor.postprocess, hd, hn, hf, hm]
  · intro hd hr hf hm
    have hn : p.model_name ≠ "YOLOv3" := fun hc => by
      rw [hc] at hr
      exact absurd hr (by decide)
    constructor
    · simp [Predictor.preprocess, hd, hn, hr, dictSet]
    · simp [Predictor.postprocess, hd, hn, hf, hm]
  · intro hs
    simp [Predictor.postprocess, hs]

/-- C2 witness: the amended behavior at the concrete unrecognized model type
`"foo"` and at the concrete unhandled combinations detector + `"SSD"`,
detector + `"CascadeRCNN"`, and a segmenter in `postprocess`. -/
theorem unknown_model_type_witness :
    (fooP.preprocess [1, 2] 4 = Except.ok []
      ∧ fooP.postprocess [] 2 3 none = Except.error PyErr.unboundLocalError)
    ∧ (ssdP.preprocess [1] 1 = Except.ok []
      ∧ ssdP.postprocess [] 1 1 none = Except.error PyErr.unboundLocalError)
    ∧ (cascadeP.preprocess [1] 1
        = Except.ok [("image", (FasterRCNN_preprocess [1] cascadeP.transforms
              cascadeP.model_type cascadeP.model_name 1).1),
            ("im_info", (FasterRCNN_preprocess [1] cascadeP.transforms
              cascadeP.model_type cascadeP.model_name 1).2.1),
            ("im_shape", (FasterRCNN_preprocess [1] cascadeP.transforms
              cascadeP.model_type cascadeP.model_name 1).2.2)]
      ∧ cascadeP.postprocess [] 1 1 none
        = Except.error PyErr.unboundLocalError)
    ∧ segP.postprocess [] 1 1 none = Except.error PyErr.unboundLocalError :=
  ⟨(unknown_model_type fooP [1, 2] 4 [] 2 3).1 (by decide) (by decide)
      (by decide),
   (unknown_model_type ssdP [1] 1 [] 1 1).2.1 rfl (by decide) (by decide),
   (unknown_model_type cascadeP [1] 1 [] 1 1).2.2.1 rfl (by decide)
      (by decide) (by decide),
   (unknown_model_type segP [] 0 [] 1 1).2.2.2 rfl⟩

/-- C6 counterexample: on a preprocessed batch that lacks `im_shape` (the
classifier layout), the extraction raises `KeyError` instead of taking shape
info from the batch, so nothing is handed to `postprocess`. -/
theorem extract_im_shape_cex :
    extract_im_shape [("image", Tensor.imageBatch [0])]
      = Except.error PyErr.keyError
    ∧ isOkE (extract_im_shape [("image", Tensor.imageBatch [0])]) = false :=
  ⟨rfl, rfl⟩

/-- C6 (amended): the shape-info extraction shared by `predict` and
`batch_predict` passes `None` to `postprocess` when `im_shape` is present in
the preprocessed batch, and raises `KeyError` when it is absent (the
conditional is inverted relative to intent); shape info is never actually
taken from the batch. -/
theorem shape_extraction_inverted (pre : List (String × Tensor)) :
    (dictContains pre "im_shape" = true →
      extract_im_shape pre = Except.ok none)
    ∧ (dictContains pre "im_shape" = false →
      extract_im_shape pre = Except.error PyErr.keyError) := by
  constructor
  · intro h
    simp [extract_im_shape, h]
  · intro h
    simp [extract_im_shape, h, dictGet_eq_none pre "im_shape" h]

/-- C6 witness: the amended extraction behavior at a batch containing
`im_shape` (RCNN layout) and at one lacking it (classifier layout). -/
theorem shape_extraction_inverted_witness :
    extract_im_shape [("im_shape", Tensor.imShape [0])] = Except.ok none
    ∧ extract_im_shape [("image", Tensor.imageBatch [1])]
      = Except.error PyErr.keyError :=
  ⟨(shape_extraction_inverted [("im_shape", Tensor.imShape [0])]).1
      (by decide),
   (shape_extraction_inverted [("image", Tensor.imageBatch [1])]).2
      (by decide)⟩

/-- C4: for a classifier model, `postprocess` clamps the requested `topk` to
`min(num_classes, topk)` and returns exactly that many ranked
`(label, score)` pairs; the ranking is sorted by descending score with ties
broken by ascending class index, and permutes the class indices. -/
theorem classifier_topk_clamped (p : Predictor) (row : List Int) (topk : Nat)
    (hty : p.model_type = "classifier")
    (hrow : row.length = p.num_classes) :
    p.postprocess [Tensor.mat [row]] topk 1 none
      = Except.ok
          [Pred.cls (topkPairs row (min p.num_classes topk) p.labels)]
    ∧ (topkPairs row (min p.num_classes topk) p.labels).length
      = min p.num_classes topk
    ∧ List.Sorted (rankRel row) (rankIdx row)
    ∧ (rankIdx row).Perm (List.range row.length) := by
  refine ⟨?_, ?_, rankIdx_sorted row, rankIdx_perm row⟩
  · simp [Predictor.postprocess, hty, BaseClassifier_postprocess]
  · exact topkPairs_length row _ p.labels
      (by rw [hrow]; exact Nat.min_le_left _ _)

/-- C4 witness: a 5-class classifier with requested `topk = 10` returns
exactly `min 5 10 = 5` ranked pairs. -/
theorem classifier_topk_clamped_witness :
    cp5.postprocess [Tensor.mat [[5, 3, 8, 8, 1]]] 10 1 none
      = Except.ok [Pred.cls (topkPairs [5, 3, 8, 8, 1]
          (min cp5.num_classes 10) cp5.labels)]
    ∧ (topkPairs [5, 3, 8, 8, 1] (min cp5.num_classes 10) cp5.labels).length
      = min cp5.num_classes 10
    ∧ List.Sorted (rankRel [5, 3, 8, 8, 1]) (rankIdx [5, 3, 8, 8, 1])
    ∧ (rankIdx [5, 3, 8, 8, 1]).Perm
        (List.range (List.length ([5, 3, 8, 8, 1] : List Int))) :=
  classifier_topk_clamped cp5 [5, 3, 8, 8, 1] 10 rfl rfl

/-- C5: `mask_head_resolution` is fixed at construction — `some 28` when the
descriptor's `Model` is `"MaskRCNN"` and the FPN flag is set, `some 14` when
it is not, and `none` for every other model name — and the MaskRCNN branch of
`postprocess` hands exactly the stored resolution to mask decoding. -/
theorem maskrcnn_resolution (info : ModelInfo)
    (hst : info.status = "Quant" ∨ info.status = "Infer")
    (p : Predictor) (r : Nat) (results : List Tensor) (topk bs : Nat)
    (hty : p.model_type = "detector") (hn : p.model_name = "MaskRCNN")
    (hr : p.mask_head_resolution = some r) :
    Except.map (fun q => q.mask_head_resolution) (Predictor.mk? info)
      = Except.ok (if info.Model = "MaskRCNN" then
          (if info.with_fpn then some 28 else some 14) else none)
    ∧ p.postprocess results topk bs none
      = Except.ok (List.replicate bs (Pred.mask r results)) := by
  constructor
  · have hcond : ¬(info.status ≠ "Quant" ∧ info.status ≠ "Infer") := by
      rcases hst with h | h <;> simp [h]
    unfold Predictor.mk?
    rw [if_neg hcond]
    rfl
  · simp [Predictor.postprocess, hty, hn, hr, MaskRCNN_postprocess]

/-- C5 witness: the FPN MaskRCNN descriptor yields resolution 28 at
construction, and a MaskRCNN predictor storing resolution 28 hands exactly
28 to mask decoding. -/
theorem maskrcnn_resolution_witness :
    Except.map (fun q => q.mask_head_resolution) (Predictor.mk? infoMask)
      = Except.ok (if infoMask.Model = "MaskRCNN" then
          (if infoMask.with_fpn then some 28 else some 14) else none)
    ∧ maskP.postprocess [Tensor.mat [[1]]] 1 2 none
      = Except.ok (List.replicate 2 (Pred.mask 28 [Tensor.mat [[1]]])) :=
  maskrcnn_resolution infoMask (Or.inr rfl) maskP 28 [Tensor.mat [[1]]] 1 2
    rfl rfl rfl

/-- C8: `raw_predict` silently drops an input entry whose slot name the
engine does not declare (no error is raised and the result is unchanged),
binds exactly the declared-name entries, runs the forward pass once, and
returns one raw output per declared output slot in the engine's declared
order. -/
theorem raw_predict_contract (e : Engine) (inputs : List (String × Tensor))
    (k : String) (v : Tensor) (hk : e.input_names.contains k = false) :
    e.raw_predict (inputs ++ [(k, v)]) = e.raw_predict inputs
    ∧ (e.raw_predict inputs).length = e.output_names.length
    ∧ e.raw_predict inputs
      = e.output_names.map
          (e.run (inputs.filter
            (fun kv => e.input_names.contains kv.fst))) := by
  refine ⟨?_, ?_, rfl⟩
  · have hk2 : k ∉ e.input_names := by simpa using hk
    simp [Engine.raw_predict, List.filter_append, hk2]
  · simp [Engine.raw_predict]

/-- C8 witness: the contract at a concrete engine and input batch, with the
unknown slot name `"extra"` silently ignored. -/
theorem raw_predict_contract_witness :
    engine0.raw_predict
        ([("image", Tensor.imageBatch [0])] ++ [("extra", Tensor.mat [])])
      = engine0.raw_predict [("image", Tensor.imageBatch [0])]
    ∧ (engine0.raw_predict [("image", Tensor.imageBatch [0])]).length
      = engine0.output_names.length
    ∧ engine0.raw_predict [("image", Tensor.imageBatch [0])]
      = engine0.output_names.map
          (engine0.run ([("image", Tensor.imageBatch [0])].filter
            (fun kv => engine0.input_names.contains kv.fst))) :=
  raw_predict_contract engine0 [("image", Tensor.imageBatch [0])] "extra"
    (Tensor.mat []) (by decide)

/-- C10 (amended): for classifier and YOLOv3 models the preprocessed batch
lacks `im_shape`, so both `predict` and `batch_predict` raise `KeyError`
while extracting shape info, before `postprocess` is reached; segmenter
models fail earlier, in `preprocess`, with `NameError` rather than
`KeyError`. -/
theorem missing_im_shape_keyError (p : Predictor) (img : Image)
    (imgs : List Image) (topk tn : Nat)
    (h : p.model_type = "classifier"
      ∨ (p.model_type = "detector" ∧ p.model_name = "YOLOv3")) :
    p.predict img topk = Except.error PyErr.keyError
    ∧ p.batch_predict imgs topk tn = Except.error PyErr.keyError := by
  rcases h with hcls | ⟨hdet, hyolo⟩
  · constructor
    · exact predict_keyError p img topk _
        (preprocess_classifier p [img] 1 hcls) (by simp [dictContains])
    · exact batch_predict_keyError p imgs topk tn _
        (preprocess_classifier p imgs 1 hcls) (by simp [dictContains])
  · constructor
    · exact predict_keyError p img topk _
        (preprocess_yolov3 p [img] 1 hdet hyolo) (by simp [dictContains])
    · exact batch_predict_keyError p imgs topk tn _
        (preprocess_yolov3 p imgs 1 hdet hyolo) (by simp [dictContains])

/-- C10 witness: the amended claim at a concrete classifier predictor and a
concrete YOLOv3 predictor. -/
theorem missing_im_shape_keyError_witness :
    (clsP.predict 1 2 = Except.error PyErr.keyError
      ∧ clsP.batch_predict [1, 2] 2 3 = Except.error PyErr.keyError)
    ∧ (yoloP.predict 4 1 = Except.error PyErr.keyError
      ∧ yoloP.batch_predict [4] 1 2 = Except.error PyErr.keyError) :=
  ⟨missing_im_shape_keyError clsP 1 [1, 2] 2 3 (Or.inl rfl),
   missing_im_shape_keyError yoloP 4 [4] 1 2 (Or.inr ⟨rfl, rfl⟩)⟩

/-- C10 counterexample: a segmenter predictor fails with `NameError` (the
`im_imfo` typo in `preprocess`), not the claimed `KeyError`. -/
theorem segmenter_predict_not_keyError :
    segP.predict 5 3 = Except.error PyErr.nameError
    ∧ segP.predict 5 3 ≠ Except.error PyErr.keyError :=
  ⟨rfl, by decide⟩

/-- C1: evidence of the defect — on a classifier predictor both `predict`
and `batch_predict` raise `KeyError` out of the inverted `im_shape`
extraction instead of returning prediction results; in particular
`batch_predict` on 3 images returns no list of 3 results.  Even on a
MaskRCNN predictor, where no `KeyError` occurs, `batch_predict` on 3 images
returns 1 result, because `postprocess` is always called with
`batch_size=1`. -/
theorem predict_batch_keyError_evidence :
    clsP.predict 7 1 = Except.error PyErr.keyError
    ∧ clsP.batch_predict [7] 1 2 = Except.error PyErr.keyError
    ∧ clsP.batch_predict [1, 2, 3] 1 2 = Except.error PyErr.keyError
    ∧ Except.map List.length (maskP.batch_predict [1, 2, 3] 1 2)
      = Except.ok 1 :=
  ⟨rfl, rfl, rfl, rfl⟩

/-- C7: evidence of the defect — segmenter preprocessing raises `NameError`
(the tuple is bound to `im, im_imfo` but the stored name is `im_info`)
instead of returning the `image` / `im_info` mapping, so the whole predict
path fails. -/
theorem segmenter_preprocess_nameError :
    segP.preprocess [0] 1 = Except.error PyErr.nameError
    ∧ segP.predict 0 1 = Except.error PyErr.nameError
    ∧ segP.batch_predict [0] 1 2 = Except.error PyErr.nameError :=
  ⟨rfl, rfl, rfl⟩

end PaddleXDeploy
